import Mathlib

set_option maxHeartbeats 1000000
set_option linter.unnecessarySeqFocus false

namespace PlayerNative

/-!
Verification development for the multi-zone signage playback controller.

The definitions below shallow-embed the Go sources:
* `internal/media` (Detect / IsSupported / DefaultImageDuration),
* `internal/playlist/watcher.go` (scan / Files / the Start event loop),
* `internal/vlc/engine.go` (ZonePlayer state, updatePlaylist, run loop, stop,
  NewEngine construction / Release on failure),
* `internal/vlc/engine_dev.go`, `engine_vlc.go`, `engine_prod.go`
  (PlayAll control flow, buildArgs geometry, Stop/kill).

Machine integers are modelled as `Nat` (template validation bounds all zone
percentages into 0..100 and screen sizes are small positive ints, so Go's
`int` arithmetic here never overflows nor goes negative).  Fallible calls
and external events (process start failure, directory read failure, which select
case fires) are explicit parameters.  The concurrent zone loop is embedded
as a small-step transition relation `Step` over `ZPState`, with one case per
atomic (mutex- or channel-delimited) operation of the Go code.
-/

/-! ### Media classifier (`internal/media`, src/unnamed/part_000) -/

inductive MediaType where
  | Unknown
  | Video
  | Image
deriving DecidableEq, Repr

/-- Model of Go `filepath.Ext`: scan the path from the end; stop at a path
separator; the extension is the suffix starting at the final dot of the
final element, empty when there is no such dot. -/
def extScan : List Char → List Char → Option (List Char)
  | [], _ => none
  | c :: rest, acc =>
    if c = '/' then none
    else if c = '.' then some (c :: acc)
    else extScan rest (c :: acc)

def filepathExt (path : String) : String :=
  match extScan path.data.reverse [] with
  | some cs => String.mk cs
  | none => String.mk []

/-- ASCII lower-casing of one character.  Go `strings.ToLower` is Unicode
aware, but on the ASCII extension strings compared by `Detect` the two
coincide (non-ASCII characters are members of neither extension set either
way). -/
def asciiLower (c : Char) : Char :=
  if 'A' ≤ c ∧ c ≤ 'Z' then Char.ofNat (c.toNat + 32) else c

def strToLower (s : String) : String :=
  String.mk (s.data.map asciiLower)

/-- `videoExts` map from src/unnamed/part_000, as the list of its keys. -/
def videoExts : List String :=
  [".mp4", ".mkv", ".avi", ".mov", ".webm", ".ts", ".m4v", ".hevc", ".flv", ".wmv"]

/-- `imageExts` map from src/unnamed/part_000, as the list of its keys. -/
def imageExts : List String :=
  [".jpg", ".jpeg", ".png", ".bmp", ".gif", ".webp", ".tiff", ".svg"]

/-- `strings.ToLower(filepath.Ext(path))`, the key `Detect` looks up. -/
def lowerExt (path : String) : String :=
  strToLower (filepathExt path)

/-- Go `media.Detect`. -/
def Detect (path : String) : MediaType :=
  let ext := lowerExt path
  if ext ∈ videoExts then MediaType.Video
  else if ext ∈ imageExts then MediaType.Image
  else MediaType.Unknown

/-- Go `media.IsSupported`. -/
def IsSupported (path : String) : Bool :=
  Detect path != MediaType.Unknown

/-- Go `media.DefaultImageDuration`. -/
def DefaultImageDuration : Nat := 10

/-! ### Playlist watcher (`internal/playlist/watcher.go`) -/

/-- One result of `os.ReadDir`: a directory entry name plus its
`IsDir()` bit. -/
structure DirEntry where
  name : String
  isDir : Bool
deriving DecidableEq, Repr

/-- Go `filepath.Join(dir, name)` for a clean directory path and a
separator-free entry name (the only shapes the watcher passes it). -/
def filepathJoin (dir name : String) : String :=
  dir ++ "/" ++ name

/-- Go's `<=` on strings, on character lists: lexicographic by code
point (for UTF-8 strings this agrees with Go's byte-wise comparison). -/
def goListLe : List Char → List Char → Bool
  | [], _ => true
  | _ :: _, [] => false
  | a :: as, b :: bs =>
    if a = b then goListLe as bs else decide (a < b)

/-- Go's `<=` on strings. -/
def goLe (a b : String) : Bool :=
  goListLe a.data b.data

/-- The order `sort.Strings` sorts by. -/
def goLeR (a b : String) : Prop :=
  goLe a b = true

instance : DecidableRel goLeR := fun a b => instDecidableEqBool (goLe a b) true

/-- `sort.Strings`: sort a string slice lexicographically. -/
def sortStrings (l : List String) : List String :=
  List.insertionSort goLeR l

/-- The pure core of `Watcher.scan` on a successful directory read:
skip subdirectories, skip unsupported names, join survivors with the
directory, sort lexicographically (`sort.Strings`). -/
def scanFiles (dir : String) (entries : List DirEntry) : List String :=
  sortStrings
    ((entries.filter (fun e => !e.isDir && IsSupported e.name)).map
      (fun e => filepathJoin dir e.name))

/-- The mutable state of a `Watcher`: its directory and the current
snapshot `w.files`. -/
structure WatcherState where
  dir : String
  files : List String
deriving DecidableEq, Repr

/-- `NewWatcher` state before the initial scan: empty snapshot. -/
def newWatcherState (dir : String) : WatcherState :=
  { dir := dir, files := [] }

/-- `Watcher.scan`: `none` models `os.ReadDir` failing, in which case the
code logs and returns without touching `w.files`; on success the snapshot
is replaced. -/
def scanGo (w : WatcherState) (readResult : Option (List DirEntry)) : WatcherState :=
  match readResult with
  | none => w
  | some entries => { w with files := scanFiles w.dir entries }

/-- `Watcher.Files` (the Go code returns a defensive copy; in the pure
model value and copy coincide). -/
def watcherFiles (w : WatcherState) : List String :=
  w.files

/-- The `fsnotify.Op` bits of one filesystem event. -/
structure FsOp where
  create : Bool
  remove : Bool
  rename : Bool
  write : Bool
  chmod : Bool
deriving DecidableEq, Repr

/-- Go `isRelevantEvent`: create, remove or rename. -/
def isRelevantEvent (op : FsOp) : Bool :=
  op.create || op.remove || op.rename

/-- One wake-up of the `Watcher.Start` select loop. -/
inductive WatchEvent where
  | stopRequest
  | eventsClosed
  | errorsClosed
  | fsEvent (op : FsOp) (readResult : Option (List DirEntry))
  | watchError
deriving DecidableEq, Repr

/-- One iteration of the `Watcher.Start` loop: the Bool is `true` when
the loop returns (stop request or a closed channel); watch errors are
logged and the loop continues; relevant events rescan. -/
def watchStep (w : WatcherState) (ev : WatchEvent) : WatcherState × Bool :=
  match ev with
  | WatchEvent.stopRequest => (w, true)
  | WatchEvent.eventsClosed => (w, true)
  | WatchEvent.errorsClosed => (w, true)
  | WatchEvent.watchError => (w, false)
  | WatchEvent.fsEvent op readResult =>
    if isRelevantEvent op then (scanGo w readResult, false) else (w, false)

/-! ### Zone player state machine (`internal/vlc/engine.go`) -/

/-- Observable side effects of `updatePlaylist` / `stop`. -/
inductive Act where
  | backendStop
  | restartEdgeSent
  | restartEdgeDropped
  | closedShutdown
deriving DecidableEq, Repr

/-- Program counter of the `ZonePlayer.run` goroutine, one value per
atomic region between blocking/lock points. -/
inductive LoopPC where
  | top
  | copied (snap : List String)
  | emptyWait
  | playing (snap : List String)
  | postCheck
  | done
deriving DecidableEq, Repr

/-- State of one `ZonePlayer`: the guarded fields `files` and `running`,
the two signals (`stopCh` closed?, number of buffered edges in
`restartCh`), a ghost counter of how many times `close(stopCh)` actually
executed (Go panics on a double close, so the code guards it), and the
run-loop program counter. -/
structure ZPState where
  files : List String
  running : Bool
  stopClosed : Bool
  restartPending : Nat
  closeCount : Nat
  pc : LoopPC
deriving DecidableEq, Repr

/-- `restartCh` is created as `make(chan struct{}, 1)`. -/
def restartCapacity : Nat := 1

/-- Non-blocking send with `default:` drop, on a buffered channel holding
`n` items. -/
def sendNonBlocking (n : Nat) : Nat × Act :=
  if n < restartCapacity then (n + 1, Act.restartEdgeSent) else (n, Act.restartEdgeDropped)

/-- `ZonePlayer.updatePlaylist`: under the lock replace the snapshot and
read `running`; if it was running, call `backend.Stop()` and deliver a
non-blocking edge to `restartCh`. -/
def updatePlaylistFn (s : ZPState) (fs : List String) : ZPState × List Act :=
  let s1 : ZPState := { s with files := fs }
  if s1.running then
    let p := sendNonBlocking s1.restartPending
    ({ s1 with restartPending := p.1 }, [Act.backendStop, p.2])
  else (s1, [])

/-- `ZonePlayer.stop`: close `stopCh` unless already closed, then
`backend.Stop()`, then clear `running` under the lock. -/
def zoneStopFn (s : ZPState) : ZPState × List Act :=
  let c : ZPState × List Act :=
    if s.stopClosed then (s, [])
    else ({ s with stopClosed := true, closeCount := s.closeCount + 1 }, [Act.closedShutdown])
  ({ c.1 with running := false }, c.2 ++ [Act.backendStop])

/-- `ZonePlayer` as created by `NewEngine` with its loop about to start. -/
def initZP (files0 : List String) : ZPState :=
  { files := files0, running := false, stopClosed := false,
    restartPending := 0, closeCount := 0, pc := LoopPC.top }

/-- Small-step interleaving semantics of one zone: the run-loop steps of
`ZonePlayer.run` plus the two entry points other goroutines may call.
Select statements enable one step per ready case; a `default:` case is
enabled only when no other case is ready; the 2s empty-wait timer and the
backend returning from `PlayAll` may fire at any time. -/
inductive Step : ZPState → ZPState → Prop where
  | update (s : ZPState) (fs : List String) :
      Step s (updatePlaylistFn s fs).1
  | stopCall (s : ZPState) :
      Step s (zoneStopFn s).1
  | topExit (s : ZPState) :
      s.pc = LoopPC.top → s.stopClosed = true →
      Step s { s with pc := LoopPC.done }
  | topCopy (s : ZPState) :
      s.pc = LoopPC.top → s.stopClosed = false →
      Step s { s with pc := LoopPC.copied s.files }
  | copiedEmpty (s : ZPState) :
      s.pc = LoopPC.copied [] →
      Step s { s with pc := LoopPC.emptyWait }
  | playStart (s : ZPState) (snap : List String) :
      s.pc = LoopPC.copied snap → snap ≠ [] →
      Step s { s with pc := LoopPC.playing snap, running := true }
  | emptyExit (s : ZPState) :
      s.pc = LoopPC.emptyWait → s.stopClosed = true →
      Step s { s with pc := LoopPC.done }
  | emptyRestart (s : ZPState) :
      s.pc = LoopPC.emptyWait → 1 ≤ s.restartPending →
      Step s { s with pc := LoopPC.top, restartPending := s.restartPending - 1 }
  | emptyTimer (s : ZPState) :
      s.pc = LoopPC.emptyWait →
      Step s { s with pc := LoopPC.top }
  | playEnd (s : ZPState) (snap : List String) :
      s.pc = LoopPC.playing snap →
      Step s { s with pc := LoopPC.postCheck, running := false }
  | postStop (s : ZPState) :
      s.pc = LoopPC.postCheck → s.stopClosed = true →
      Step s { s with pc := LoopPC.done }
  | postRestart (s : ZPState) :
      s.pc = LoopPC.postCheck → 1 ≤ s.restartPending →
      Step s { s with pc := LoopPC.top, restartPending := s.restartPending - 1 }
  | postBackoff (s : ZPState) :
      s.pc = LoopPC.postCheck → s.stopClosed = false → s.restartPending = 0 →
      Step s { s with pc := LoopPC.top }

/-- States reachable from a freshly constructed zone with empty playlist. -/
def Reachable (s : ZPState) : Prop :=
  Relation.ReflTransGen Step (initZP []) s

/-- Termination measure on the loop program counter once shutdown is
signalled. -/
def pcMeasure : LoopPC → Nat
  | LoopPC.done => 0
  | LoopPC.top => 1
  | LoopPC.emptyWait => 2
  | LoopPC.postCheck => 2
  | LoopPC.playing _ => 3
  | LoopPC.copied _ => 4

/-! ### Development / subprocess backend state (`engine_dev.go`) -/

/-- `devBackend` mutable state: the current subprocess handle (if any)
and a ghost count of processes actually killed. -/
structure DevBackend where
  cmd : Option Unit
  kills : Nat
deriving DecidableEq, Repr

/-- `devBackend.kill` (also the body of `Stop` and `Release`): kill and
clear the process if one is attached, otherwise do nothing. -/
def devKill (b : DevBackend) : DevBackend :=
  match b.cmd with
  | some _ => { cmd := none, kills := b.kills + 1 }
  | none => b

/-- A zone player paired with its (dev) backend, as `stop()` touches both. -/
structure ZoneFull where
  zp : ZPState
  backend : DevBackend
deriving DecidableEq, Repr

/-- `ZonePlayer.stop` including the `backend.Stop()` effect on the dev
backend. -/
def stopFullFn (z : ZoneFull) : ZoneFull :=
  { zp := (zoneStopFn z.zp).1, backend := devKill z.backend }

/-! ### Backend `PlayAll` control flow (`engine_dev.go`, `engine_vlc.go`,
`engine_prod.go`) -/

inductive PlayErr where
  | emptyPlaylist
  | startFailed
  | listCreateFailed
  | setListFailed
  | playCallFailed
deriving DecidableEq, Repr

/-- Why a subprocess `PlayAll` select unblocked: the caller-provided stop
signal became observable, or the process exited (on its own — normally or
with an error — or because `Stop()` killed it). -/
inductive SubprocEnd where
  | stopSignal
  | processExit (withError : Bool)
deriving DecidableEq, Repr

/-- Why the prod `PlayAll` select unblocked: caller stop signal, or the
local `stopped` channel closed by `Stop()`. -/
inductive ProdEnd where
  | stopSignal
  | stoppedClosed
deriving DecidableEq, Repr

/-- Observable outcome of one `PlayAll` call: the returned error, whether
playback was started, and whether the call blocked on its select. -/
structure PlayOutcome where
  err : Option PlayErr
  started : Bool
  waited : Bool
deriving DecidableEq, Repr

/-- `devBackend.PlayAll`: reject empty list; start VLC (may fail); then
block until the stop signal fires (kill, return nil) or the process
exits (return nil — the `Wait` error is discarded). -/
def devPlayAll (files : List String) (startFails : Bool) (e : SubprocEnd) : PlayOutcome :=
  if files.isEmpty then { err := some PlayErr.emptyPlaylist, started := false, waited := false }
  else if startFails then { err := some PlayErr.startFailed, started := false, waited := false }
  else
    match e with
    | SubprocEnd.stopSignal => { err := none, started := true, waited := true }
    | SubprocEnd.processExit _ => { err := none, started := true, waited := true }

/-- `vlcBackend.PlayAll`: identical control flow to the dev backend
(the window-positioning goroutine does not influence the result). -/
def vlcPlayAll (files : List String) (startFails : Bool) (e : SubprocEnd) : PlayOutcome :=
  if files.isEmpty then { err := some PlayErr.emptyPlaylist, started := false, waited := false }
  else if startFails then { err := some PlayErr.startFailed, started := false, waited := false }
  else
    match e with
    | SubprocEnd.stopSignal => { err := none, started := true, waited := true }
    | SubprocEnd.processExit _ => { err := none, started := true, waited := true }

/-- `prodBackend.PlayAll`: reject empty list; build the media list and
hand it to the list player (each step may fail and returns that error);
start playback (may fail); then block until the caller stop signal or the
local stopped channel fires — both return nil. -/
def prodPlayAll (files : List String) (listCreateFails setListFails playFails : Bool)
    (e : ProdEnd) : PlayOutcome :=
  if files.isEmpty then { err := some PlayErr.emptyPlaylist, started := false, waited := false }
  else if listCreateFails then { err := some PlayErr.listCreateFailed, started := false, waited := false }
  else if setListFails then { err := some PlayErr.setListFailed, started := false, waited := false }
  else if playFails then { err := some PlayErr.playCallFailed, started := false, waited := false }
  else
    match e with
    | ProdEnd.stopSignal => { err := none, started := true, waited := true }
    | ProdEnd.stoppedClosed => { err := none, started := true, waited := true }

/-! ### Zones and engine construction (`internal/template`, `engine.go`) -/

/-- `template.Zone`.  Percent fields are `Nat`: `Template.Validate`
enforces `0 ≤ x, y`, `1 ≤ width, height`, `x + width ≤ 100` and
`y + height ≤ 100`, so Go's `int` values are non-negative and small. -/
structure Zone where
  id : String
  x : Nat
  y : Nat
  width : Nat
  height : Nat
  playlistDir : String
  zindex : Nat
deriving DecidableEq, Repr

/-- Outcome of preparing one zone's backend inside `NewEngine`:
`newBackend()` fails, `b.Init` fails, or both succeed. -/
inductive ZoneSetup where
  | newFails
  | initFails
  | ok
deriving DecidableEq, Repr

/-- The `NewEngine` zone loop.  `acc` is `e.zones` built so far (as zone
ids).  On the first failure the code calls `e.Release()` — which stops
and releases every backend appended so far, in order — and returns a nil
engine; the second component records the ids whose backends were
released. -/
def newEngineLoop (acc : List String) : List (Zone × ZoneSetup) → Option (List String) × List String
  | [] => (some acc, [])
  | (z, st) :: rest =>
    match st with
    | ZoneSetup.ok => newEngineLoop (acc ++ [z.id]) rest
    | ZoneSetup.newFails => (none, acc)
    | ZoneSetup.initFails => (none, acc)

/-- `NewEngine`: engine ids on success, `none` plus released ids on
failure. -/
def newEngineGo (zs : List (Zone × ZoneSetup)) : Option (List String) × List String :=
  newEngineLoop [] zs

/-! ### Backend geometry arguments (`engine_dev.go`, `engine_vlc.go`) -/

/-- The flag list `devBackend.buildArgs` starts from, in source order. -/
def devBaseArgs : List String :=
  ["--fullscreen", "--no-video-deco", "--no-embedded-video", "--video-on-top",
   "--no-qt-fs-controller", "--no-qt-privacy-ask", "--no-qt-error-msg",
   "--no-qt-name-in-title", "--mouse-hide-timeout=0", "--no-video-title-show",
   "--no-osd", "--no-interact", "--no-snapshot-preview", "--autoscale",
   "--loop", "--no-random", "--avcodec-hw=any", "--avcodec-threads=0",
   "--avcodec-fast", "--avcodec-skiploopfilter=0", "--file-caching=8000",
   "--network-caching=3000", "--live-caching=3000", "--disc-caching=3000",
   "--clock-jitter=0", "--deinterlace=0",
   "--image-duration=" ++ toString DefaultImageDuration, "--quiet"]

/-- The multi-zone test of `devBackend.buildArgs`:
`Width < 100 || Height < 100 || X > 0 || Y > 0`. -/
def devZonePositioned (z : Zone) : Bool :=
  decide (z.width < 100) || decide (z.height < 100) || decide (0 < z.x) || decide (0 < z.y)

/-- `devBackend.buildArgs`: base kiosk/playback flags, a Windows-only
video output flag, then either keep `--fullscreen` (full zone) or filter
it out and append the positioned-window flags computed from the pixel
rectangle; finally the files. -/
def devBuildArgs (goosWindows : Bool) (z : Zone) (screenW screenH : Nat)
    (files : List String) : List String :=
  let args := devBaseArgs
  let args := if goosWindows then args ++ ["--vout=direct3d11"] else args
  let args :=
    if devZonePositioned z then
      (args.filter (fun f => f != "--fullscreen")) ++
        ["--video-x=" ++ toString (z.x * screenW / 100),
         "--video-y=" ++ toString (z.y * screenH / 100),
         "--width=" ++ toString (z.width * screenW / 100),
         "--height=" ++ toString (z.height * screenH / 100)]
    else args
  args ++ files

/-- `vlcBackend.Init`'s full-zone test:
`X == 0 && Y == 0 && Width >= 100 && Height >= 100`. -/
def vlcIsFullZone (z : Zone) : Bool :=
  decide (z.x = 0) && decide (z.y = 0) && decide (100 ≤ z.width) && decide (100 ≤ z.height)

/-- The flag list of `vlcBackend.buildWindowsArgs`, in source order. -/
def vlcWindowsBaseArgs : List String :=
  ["--no-video-deco", "--video-on-top", "--no-video-title-show", "--no-osd",
   "--no-spu", "--mouse-hide-timeout=0", "--no-qt-fs-controller",
   "--no-qt-name-in-title", "--no-qt-privacy-ask", "--loop", "--no-random",
   "--avcodec-hw=any", "--avcodec-threads=0", "--avcodec-skiploopfilter=0",
   "--file-caching=8000", "--network-caching=3000", "--live-caching=3000",
   "--disc-caching=3000", "--clock-jitter=0", "--deinterlace=0",
   "--vout=direct3d11",
   "--image-duration=" ++ toString DefaultImageDuration, "--quiet"]

/-- `vlcBackend.buildWindowsArgs`: base flags, then `--fullscreen` for a
full zone or the positioned-window flags otherwise, then the files. -/
def vlcBuildWindowsArgs (z : Zone) (screenW screenH : Nat)
    (files : List String) : List String :=
  let args := vlcWindowsBaseArgs
  let args :=
    if vlcIsFullZone z then args ++ ["--fullscreen"]
    else args ++
      ["--width=" ++ toString (z.width * screenW / 100),
       "--height=" ++ toString (z.height * screenH / 100),
       "--video-x=" ++ toString (z.x * screenW / 100),
       "--video-y=" ++ toString (z.y * screenH / 100)]
  args ++ files

/-! ### Concrete states used by witnesses and counterexamples -/

/-- A sample media path. -/
def samplePath : String := "/media/a.mp4"

/-- Fresh zone player, empty playlist, loop at the top. -/
def cexS0 : ZPState := initZP []

/-- After `updatePlaylist([samplePath])` while not running: snapshot
replaced, no signal. -/
def cexS1 : ZPState := (updatePlaylistFn cexS0 [samplePath]).1

/-- The loop passed its shutdown check and copied the snapshot. -/
def cexS2 : ZPState := { cexS1 with pc := LoopPC.copied cexS1.files }

/-- `stop()` runs to completion here: shutdown closed, backend stopped,
running cleared. -/
def cexS3 : ZPState := (zoneStopFn cexS2).1

/-- The loop, already past its shutdown check, now starts playback. -/
def cexS4 : ZPState := { cexS3 with pc := LoopPC.playing [samplePath], running := true }

/-- A zone player state in mid-playback with one restart edge pending. -/
def witPlaying : ZPState :=
  { files := [samplePath], running := true, stopClosed := false,
    restartPending := 1, closeCount := 0, pc := LoopPC.playing [samplePath] }

/-- A directory entry for the sample media file. -/
def sampleEntry : DirEntry := { name := "a.mp4", isDir := false }

/-- The literal scenario directory. -/
def litDir : String := "/media"

/-- A watcher that has successfully scanned a directory containing one
media file. -/
def watAfterScan : WatcherState :=
  scanGo (newWatcherState litDir) (some [sampleEntry])

/-- An idle dev backend (no subprocess attached). -/
def witBackendIdle : DevBackend := { cmd := none, kills := 0 }

/-- A zone (player plus dev backend with a live subprocess) to stop. -/
def witZoneFull : ZoneFull :=
  { zp := initZP [], backend := { cmd := some (), kills := 0 } }

/-- A state about to take the loop's top-of-iteration step. -/
def witT : ZPState := initZP []

/-- The state after the loop copies the (empty) snapshot. -/
def witU : ZPState := { witT with pc := LoopPC.copied [] }

/-- The literal scenario directory listing of spec §8, scenario 1. -/
def litEntries : List DirEntry :=
  [{ name := "charlie.mp4", isDir := false },
   { name := "alpha.mkv", isDir := false },
   { name := "bravo.avi", isDir := false },
   { name := "notes.txt", isDir := false },
   { name := "readme.md", isDir := false },
   { name := "delta.hevc", isDir := false },
   { name := "echo.webm", isDir := false },
   { name := "foxtrot.jpg", isDir := false },
   { name := "golf.png", isDir := false }]

/-- The expected snapshot for the literal scenario. -/
def litExpected : List String :=
  ["/media/alpha.mkv", "/media/bravo.avi", "/media/charlie.mp4",
   "/media/delta.hevc", "/media/echo.webm", "/media/foxtrot.jpg",
   "/media/golf.png"]

/-- A full-screen zone. -/
def fullZone : Zone :=
  { id := "main", x := 0, y := 0, width := 100, height := 100,
    playlistDir := "/media", zindex := 0 }

/-- A footer zone occupying the bottom 15% of the screen. -/
def footerZone : Zone :=
  { id := "footer", x := 0, y := 85, width := 100, height := 15,
    playlistDir := "/media/footer", zindex := 1 }

/-! ### Helper lemmas -/

theorem goListLe_total (as bs : List Char) :
    goListLe as bs = true ∨ goListLe bs as = true := by
  induction as generalizing bs with
  | nil => left; rfl
  | cons a as ih =>
    cases bs with
    | nil => right; rfl
    | cons b bs =>
      by_cases hab : a = b
      · subst hab
        simpa [goListLe] using ih bs
      · rcases lt_trichotomy a b with h | h | h
        · left; simp [goListLe, hab, h]
        · exact absurd h hab
        · right; simp [goListLe, Ne.symm hab, h]

theorem goListLe_trans (as bs cs : List Char)
    (h1 : goListLe as bs = true) (h2 : goListLe bs cs = true) :
    goListLe as cs = true := by
  induction as generalizing bs cs with
  | nil => rfl
  | cons a as ih =>
    cases bs with
    | nil => simp [goListLe] at h1
    | cons b bs =>
      cases cs with
      | nil => simp [goListLe] at h2
      | cons c cs =>
        by_cases hab : a = b <;> by_cases hbc : b = c
        · subst hab
          subst hbc
          simp [goListLe] at h1 h2 ⊢
          exact ih bs cs h1 h2
        · subst hab
          simp [goListLe, hbc] at h2 ⊢
          exact h2
        · subst hbc
          simp [goListLe, hab] at h1 ⊢
          exact h1
        · simp [goListLe, hab] at h1
          simp [goListLe, hbc] at h2
          have hac : a < c := lt_trans h1 h2
          simp [goListLe, ne_of_lt hac, hac]

instance : IsTotal String goLeR :=
  ⟨fun a b => goListLe_total a.data b.data⟩

instance : IsTrans String goLeR :=
  ⟨fun a b c h1 h2 => goListLe_trans a.data b.data c.data h1 h2⟩

@[simp] theorem updateFn_pc (s : ZPState) (fs : List String) :
    ((updatePlaylistFn s fs).1).pc = s.pc := by
  by_cases h : s.running <;> simp [updatePlaylistFn, h]

@[simp] theorem updateFn_running (s : ZPState) (fs : List String) :
    ((updatePlaylistFn s fs).1).running = s.running := by
  by_cases h : s.running <;> simp [updatePlaylistFn, h]

@[simp] theorem updateFn_stopClosed (s : ZPState) (fs : List String) :
    ((updatePlaylistFn s fs).1).stopClosed = s.stopClosed := by
  by_cases h : s.running <;> simp [updatePlaylistFn, h]

@[simp] theorem updateFn_closeCount (s : ZPState) (fs : List String) :
    ((updatePlaylistFn s fs).1).closeCount = s.closeCount := by
  by_cases h : s.running <;> simp [updatePlaylistFn, h]

@[simp] theorem updateFn_files (s : ZPState) (fs : List String) :
    ((updatePlaylistFn s fs).1).files = fs := by
  by_cases h : s.running <;> simp [updatePlaylistFn, h]

theorem updateFn_pending_le (s : ZPState) (fs : List String)
    (h : s.restartPending ≤ 1) : ((updatePlaylistFn s fs).1).restartPending ≤ 1 := by
  by_cases hr : s.running <;>
    simp [updatePlaylistFn, hr, sendNonBlocking, restartCapacity] <;>
    (try split) <;> omega

@[simp] theorem stopFn_pc (s : ZPState) : ((zoneStopFn s).1).pc = s.pc := by
  by_cases h : s.stopClosed <;> simp [zoneStopFn, h]

@[simp] theorem stopFn_running (s : ZPState) : ((zoneStopFn s).1).running = false := by
  by_cases h : s.stopClosed <;> simp [zoneStopFn, h]

@[simp] theorem stopFn_stopClosed (s : ZPState) : ((zoneStopFn s).1).stopClosed = true := by
  by_cases h : s.stopClosed <;> simp [zoneStopFn, h]

@[simp] theorem stopFn_files (s : ZPState) : ((zoneStopFn s).1).files = s.files := by
  by_cases h : s.stopClosed <;> simp [zoneStopFn, h]

@[simp] theorem stopFn_pending (s : ZPState) :
    ((zoneStopFn s).1).restartPending = s.restartPending := by
  by_cases h : s.stopClosed <;> simp [zoneStopFn, h]

theorem stopFn_closeCount (s : ZPState) :
    ((zoneStopFn s).1).closeCount =
      if s.stopClosed then s.closeCount else s.closeCount + 1 := by
  by_cases h : s.stopClosed <;> simp [zoneStopFn, h]

theorem zoneStopFn_idem (s : ZPState) :
    (zoneStopFn (zoneStopFn s).1).1 = (zoneStopFn s).1 := by
  by_cases h : s.stopClosed <;> simp [zoneStopFn, h]

theorem devKill_idem (b : DevBackend) : devKill (devKill b) = devKill b := by
  cases hb : b.cmd <;> simp [devKill, hb]

theorem devKill_noop (b : DevBackend) (hb : b.cmd = none) : devKill b = b := by
  simp [devKill, hb]

theorem stopFullFn_idem (z : ZoneFull) : stopFullFn (stopFullFn z) = stopFullFn z := by
  simp [stopFullFn, zoneStopFn_idem, devKill_idem]

theorem stopFullFn_iterate (z : ZoneFull) (n : Nat) :
    stopFullFn^[n + 1] z = stopFullFn z := by
  induction n with
  | zero => simp
  | succ m ih => rw [Function.iterate_succ_apply', ih, stopFullFn_idem]

/-- One-step preservation of the signal invariants: at most one buffered
restart edge, the shutdown channel closed at most once, and only after
`stop()` ran. -/
theorem step_inv {s t : ZPState} (hst : Step s t)
    (h1 : s.restartPending ≤ 1) (h2 : s.closeCount ≤ 1)
    (h3 : s.stopClosed = false → s.closeCount = 0) :
    t.restartPending ≤ 1 ∧ t.closeCount ≤ 1 ∧
      (t.stopClosed = false → t.closeCount = 0) := by
  cases hst with
  | update fs =>
    exact ⟨updateFn_pending_le s fs h1, by simpa using h2, by simpa using h3⟩
  | stopCall =>
    refine ⟨by simpa using h1, ?_, by simp⟩
    by_cases hc : s.stopClosed
    · simpa [stopFn_closeCount, hc] using h2
    · have h0 : s.closeCount = 0 := h3 (by simpa using hc)
      simp [stopFn_closeCount, hc, h0]
  | topExit hpc hcl => exact ⟨h1, h2, h3⟩
  | topCopy hpc hcl => exact ⟨h1, h2, h3⟩
  | copiedEmpty hpc => exact ⟨h1, h2, h3⟩
  | playStart snap hpc hne => exact ⟨h1, h2, h3⟩
  | emptyExit hpc hcl => exact ⟨h1, h2, h3⟩
  | emptyRestart hpc hp => exact ⟨by simp; omega, h2, h3⟩
  | emptyTimer hpc => exact ⟨h1, h2, h3⟩
  | playEnd snap hpc => exact ⟨h1, h2, h3⟩
  | postStop hpc hcl => exact ⟨h1, h2, h3⟩
  | postRestart hpc hp => exact ⟨by simp; omega, h2, h3⟩
  | postBackoff hpc hcl hp => exact ⟨h1, h2, h3⟩

/-- The signal invariants hold in every reachable state. -/
theorem reachable_inv (s : ZPState) (h : Reachable s) :
    s.restartPending ≤ 1 ∧ s.closeCount ≤ 1 ∧
      (s.stopClosed = false → s.closeCount = 0) := by
  induction h with
  | refl => simp [initZP]
  | tail hab hbc ih => exact step_inv hbc ih.1 ih.2.1 ih.2.2

/-- The video and image extension sets are disjoint. -/
theorem video_image_disjoint (s : String) (h : s ∈ videoExts) : s ∉ imageExts := by
  fin_cases h <;> decide

/-! ### Claim theorems -/

/-- C7: `classify` (Go `Detect`) depends only on the lower-cased
file-name extension: it returns Video iff that extension is in the video
set, Image iff it is in the image set, Unsupported (`Unknown`) otherwise;
and `isSupported` holds iff the classification is not Unsupported. -/
theorem claimC7_classifier (name : String) :
    (Detect name = MediaType.Video ↔ lowerExt name ∈ videoExts)
    ∧ (Detect name = MediaType.Image ↔ lowerExt name ∈ imageExts)
    ∧ (Detect name = MediaType.Unknown ↔
        (lowerExt name ∉ videoExts ∧ lowerExt name ∉ imageExts))
    ∧ (IsSupported name = true ↔ Detect name ≠ MediaType.Unknown) := by
  by_cases hv : lowerExt name ∈ videoExts <;> by_cases hi : lowerExt name ∈ imageExts
  · exact absurd hi (video_image_disjoint _ hv)
  · simp [Detect, IsSupported, hv, hi]
  · simp [Detect, IsSupported, hv, hi]
  · simp [Detect, IsSupported, hv, hi]

/-- C3: a successful watcher scan stores exactly the lexicographically
sorted sequence of directory-joined names of the non-directory entries
with supported media names; in the literal nine-file scenario the
snapshot is the seven media paths in alphabetical order, with the two
text files excluded. -/
theorem claimC3_scan_sorted :
    (∀ (w : WatcherState) (entries : List DirEntry),
        watcherFiles (scanGo w (some entries)) = scanFiles w.dir entries)
    ∧ (∀ (dir : String) (entries : List DirEntry),
        List.Sorted goLeR (scanFiles dir entries)
        ∧ List.Perm (scanFiles dir entries)
            ((entries.filter (fun e => !e.isDir && IsSupported e.name)).map
              (fun e => filepathJoin dir e.name)))
    ∧ scanFiles litDir litEntries = litExpected := by
  refine ⟨fun w entries => rfl,
    fun dir entries => ⟨List.sorted_insertionSort _ _, List.perm_insertionSort _ _⟩,
    by decide⟩

/-- C4 counterexample: after a successful scan of a directory holding one
media file, a scan whose directory read fails leaves the previous
non-empty snapshot in place — `Files()` does not return the empty
sequence, contrary to the claim. -/
theorem claimC4_counterexample :
    watcherFiles (scanGo watAfterScan none) ≠ [] := by decide

/-- C4 (amended): if reading the directory fails during a scan, the
error is logged and the snapshot is left unchanged for every watcher —
in particular, a failed scan after a successful one retains that scan's
result, and a failed initial scan leaves `Files()` empty — and the
watcher keeps observing: neither an event-triggered rescan nor a watch
error terminates the `Start` loop. -/
theorem claimC4_scan_error (w : WatcherState) (dir : String)
    (entries : List DirEntry) (op : FsOp) (res : Option (List DirEntry)) :
    scanGo w none = w
    ∧ watcherFiles (scanGo w none) = watcherFiles w
    ∧ watcherFiles (scanGo (scanGo w (some entries)) none) = scanFiles w.dir entries
    ∧ watcherFiles (scanGo (newWatcherState dir) none) = []
    ∧ (watchStep w (WatchEvent.fsEvent op res)).2 = false
    ∧ (watchStep w WatchEvent.watchError).2 = false := by
  refine ⟨rfl, rfl, rfl, rfl, ?_, rfl⟩
  by_cases h : isRelevantEvent op <;> simp [watchStep, h]

/-- C10: every backend's `PlayAll` rejects an empty file list with a
non-nil error immediately: no playback is started and the call never
blocks on its stop-signal select. -/
theorem claimC10_empty_playlist (startFails l se p : Bool)
    (e : SubprocEnd) (pe : ProdEnd) :
    devPlayAll [] startFails e =
      { err := some PlayErr.emptyPlaylist, started := false, waited := false }
    ∧ vlcPlayAll [] startFails e =
      { err := some PlayErr.emptyPlaylist, started := false, waited := false }
    ∧ prodPlayAll [] l se p pe =
      { err := some PlayErr.emptyPlaylist, started := false, waited := false } := by
  refine ⟨rfl, rfl, rfl⟩

/-- C5: for a non-empty list, every backend's `PlayAll` returns success
when it ends via `stop()` (process killed / local stopped channel) or via
the caller's stop signal, and returns a non-nil error only when one of
its unrecoverable underlying operations failed. -/
theorem claimC5_playall_errors (files : List String) (startFails l se p : Bool)
    (e : SubprocEnd) (pe : ProdEnd) (hne : files ≠ []) :
    devPlayAll files false e = { err := none, started := true, waited := true }
    ∧ ((devPlayAll files startFails e).err ≠ none → startFails = true)
    ∧ vlcPlayAll files false e = { err := none, started := true, waited := true }
    ∧ ((vlcPlayAll files startFails e).err ≠ none → startFails = true)
    ∧ prodPlayAll files false false false pe =
        { err := none, started := true, waited := true }
    ∧ ((prodPlayAll files l se p pe).err ≠ none →
        l = true ∨ se = true ∨ p = true) := by
  have hie : files.isEmpty = false := by
    cases files with
    | nil => exact absurd rfl hne
    | cons a as => rfl
  refine ⟨?_, ?_, ?_, ?_, ?_, ?_⟩
  · cases e <;> simp [devPlayAll, hie]
  · intro h
    cases startFails
    · exfalso; cases e <;> simp [devPlayAll, hie] at h
    · rfl
  · cases e <;> simp [vlcPlayAll, hie]
  · intro h
    cases startFails
    · exfalso; cases e <;> simp [vlcPlayAll, hie] at h
    · rfl
  · cases pe <;> simp [prodPlayAll, hie]
  · intro h
    cases l
    · cases se
      · cases p
        · exfalso; cases pe <;> simp [prodPlayAll, hie] at h
        · exact Or.inr (Or.inr rfl)
      · exact Or.inr (Or.inl rfl)
    · exact Or.inl rfl

/-- C5 witness: the statement at a one-file playlist with each end
cause instantiated. -/
theorem claimC5_playall_errors_witness :
    devPlayAll [samplePath] false SubprocEnd.stopSignal =
      { err := none, started := true, waited := true }
    ∧ ((devPlayAll [samplePath] false SubprocEnd.stopSignal).err ≠ none → false = true)
    ∧ vlcPlayAll [samplePath] false SubprocEnd.stopSignal =
      { err := none, started := true, waited := true }
    ∧ ((vlcPlayAll [samplePath] false SubprocEnd.stopSignal).err ≠ none → false = true)
    ∧ prodPlayAll [samplePath] false false false ProdEnd.stoppedClosed =
        { err := none, started := true, waited := true }
    ∧ ((prodPlayAll [samplePath] false false false ProdEnd.stoppedClosed).err ≠ none →
        false = true ∨ false = true ∨ false = true) :=
  claimC5_playall_errors [samplePath] false false false false
    SubprocEnd.stopSignal ProdEnd.stoppedClosed (by decide)

/-- Accumulator form of the `NewEngine` failure path. -/
theorem newEngineLoop_fail (pre : List (Zone × ZoneSetup)) (z : Zone) (st : ZoneSetup)
    (rest : List (Zone × ZoneSetup)) (acc : List String)
    (hpre : ∀ p ∈ pre, p.2 = ZoneSetup.ok) (hfail : st ≠ ZoneSetup.ok) :
    newEngineLoop acc (pre ++ (z, st) :: rest) =
      (none, acc ++ pre.map (fun p => p.1.id)) := by
  induction pre generalizing acc with
  | nil =>
    cases st with
    | ok => exact absurd rfl hfail
    | newFails => simp [newEngineLoop]
    | initFails => simp [newEngineLoop]
  | cons q pre ih =>
    obtain ⟨qz, qs⟩ := q
    have hq : qs = ZoneSetup.ok := hpre (qz, qs) (List.mem_cons_self _ _)
    subst hq
    have ihh := ih (acc ++ [qz.id]) (fun p hp => hpre p (List.mem_cons_of_mem _ hp))
    simp [newEngineLoop, ihh]

/-- C6: if creating or initializing the backend fails for some zone
during `NewEngine`, the engine releases exactly the backends of the
earlier (successfully initialized) zones, in construction order, and
returns no engine value. -/
theorem claimC6_cleanup (pre rest : List (Zone × ZoneSetup)) (z : Zone) (st : ZoneSetup)
    (hpre : ∀ p ∈ pre, p.2 = ZoneSetup.ok) (hfail : st ≠ ZoneSetup.ok) :
    newEngineGo (pre ++ (z, st) :: rest) = (none, pre.map (fun p => p.1.id)) := by
  simpa [newEngineGo] using newEngineLoop_fail pre z st rest [] hpre hfail

/-- C6 witness: a two-zone template whose second zone fails `Init`. -/
theorem claimC6_cleanup_witness :
    newEngineGo ([(fullZone, ZoneSetup.ok)] ++ (footerZone, ZoneSetup.initFails) :: []) =
      (none, [(fullZone, ZoneSetup.ok)].map (fun p => p.1.id)) :=
  claimC6_cleanup [(fullZone, ZoneSetup.ok)] [] footerZone ZoneSetup.initFails
    (by decide) (by decide)

/-- C9: both subprocess backends compute the pixel rectangle as
(x·W/100, y·H/100, w·W/100, h·H/100) in integer arithmetic; under
template validation the full zone (0,0,100,100) is exactly the one that
keeps fullscreen mode, and any other zone drops the fullscreen flag in
favour of the positioned-window arguments built from that rectangle. -/
theorem claimC9_geometry (z : Zone) (screenW screenH : Nat) (goosWindows : Bool)
    (files : List String) (hw : z.width ≤ 100) (hh : z.height ≤ 100) :
    (devZonePositioned z = false ↔
      (z.x = 0 ∧ z.y = 0 ∧ z.width = 100 ∧ z.height = 100))
    ∧ (vlcIsFullZone z = true ↔
      (z.x = 0 ∧ z.y = 0 ∧ z.width = 100 ∧ z.height = 100))
    ∧ (devZonePositioned z = false →
        devBuildArgs goosWindows z screenW screenH files =
          (if goosWindows then devBaseArgs ++ ["--vout=direct3d11"] else devBaseArgs)
            ++ files
        ∧ "--fullscreen" ∈ devBuildArgs goosWindows z screenW screenH files)
    ∧ (devZonePositioned z = true →
        devBuildArgs goosWindows z screenW screenH files =
          ((if goosWindows then devBaseArgs ++ ["--vout=direct3d11"] else devBaseArgs).filter
              (fun f => f != "--fullscreen")) ++
            ["--video-x=" ++ toString (z.x * screenW / 100),
             "--video-y=" ++ toString (z.y * screenH / 100),
             "--width=" ++ toString (z.width * screenW / 100),
             "--height=" ++ toString (z.height * screenH / 100)] ++ files
        ∧ "--fullscreen" ∉
            ((if goosWindows then devBaseArgs ++ ["--vout=direct3d11"] else devBaseArgs).filter
              (fun f => f != "--fullscreen")))
    ∧ (vlcIsFullZone z = true →
        vlcBuildWindowsArgs z screenW screenH files =
          vlcWindowsBaseArgs ++ ["--fullscreen"] ++ files)
    ∧ (vlcIsFullZone z = false →
        vlcBuildWindowsArgs z screenW screenH files =
          vlcWindowsBaseArgs ++
            ["--width=" ++ toString (z.width * screenW / 100),
             "--height=" ++ toString (z.height * screenH / 100),
             "--video-x=" ++ toString (z.x * screenW / 100),
             "--video-y=" ++ toString (z.y * screenH / 100)] ++ files) := by
  refine ⟨?_, ?_, ?_, ?_, ?_, ?_⟩
  · simp only [devZonePositioned, Bool.or_eq_false_iff, decide_eq_false_iff_not, not_lt]
    omega
  · simp only [vlcIsFullZone, Bool.and_eq_true, decide_eq_true_eq]
    omega
  · intro hfz
    constructor
    · simp [devBuildArgs, hfz]
    · cases goosWindows <;> simp [devBuildArgs, hfz, devBaseArgs]
  · intro hfz
    constructor
    · simp [devBuildArgs, hfz]
    · simp
  · intro hfz
    simp [vlcBuildWindowsArgs, hfz]
  · intro hfz
    simp [vlcBuildWindowsArgs, hfz]

/-- C9 witness: the statement at a full zone and a 1920×1080 screen. -/
theorem claimC9_geometry_witness :
    (devZonePositioned fullZone = false ↔
      (fullZone.x = 0 ∧ fullZone.y = 0 ∧ fullZone.width = 100 ∧ fullZone.height = 100))
    ∧ (vlcIsFullZone fullZone = true ↔
      (fullZone.x = 0 ∧ fullZone.y = 0 ∧ fullZone.width = 100 ∧ fullZone.height = 100))
    ∧ (devZonePositioned fullZone = false →
        devBuildArgs false fullZone 1920 1080 [samplePath] =
          (if false then devBaseArgs ++ ["--vout=direct3d11"] else devBaseArgs)
            ++ [samplePath]
        ∧ "--fullscreen" ∈ devBuildArgs false fullZone 1920 1080 [samplePath])
    ∧ (devZonePositioned fullZone = true →
        devBuildArgs false fullZone 1920 1080 [samplePath] =
          ((if false then devBaseArgs ++ ["--vout=direct3d11"] else devBaseArgs).filter
              (fun f => f != "--fullscreen")) ++
            ["--video-x=" ++ toString (fullZone.x * 1920 / 100),
             "--video-y=" ++ toString (fullZone.y * 1080 / 100),
             "--width=" ++ toString (fullZone.width * 1920 / 100),
             "--height=" ++ toString (fullZone.height * 1080 / 100)] ++ [samplePath]
        ∧ "--fullscreen" ∉
            ((if false then devBaseArgs ++ ["--vout=direct3d11"] else devBaseArgs).filter
              (fun f => f != "--fullscreen")))
    ∧ (vlcIsFullZone fullZone = true →
        vlcBuildWindowsArgs fullZone 1920 1080 [samplePath] =
          vlcWindowsBaseArgs ++ ["--fullscreen"] ++ [samplePath])
    ∧ (vlcIsFullZone fullZone = false →
        vlcBuildWindowsArgs fullZone 1920 1080 [samplePath] =
          vlcWindowsBaseArgs ++
            ["--width=" ++ toString (fullZone.width * 1920 / 100),
             "--height=" ++ toString (fullZone.height * 1080 / 100),
             "--video-x=" ++ toString (fullZone.x * 1920 / 100),
             "--video-y=" ++ toString (fullZone.y * 1080 / 100)] ++ [samplePath]) :=
  claimC9_geometry fullZone 1920 1080 false [samplePath] (by decide) (by decide)

/-- C1: an update arriving while playback is in flight stops the backend
and leaves exactly one pending restart edge (a second edge is dropped —
the channel holds at most one, an invariant of every reachable state),
and no update is lost: the loop enters a copy phase only from the top of
the loop reading the then-current snapshot, playback starts only with
that copied snapshot, and with an edge pending the post-playback select
cannot take the backoff branch, so the loop re-enters the top and
re-reads the latest snapshot. -/
theorem claimC1_coalescing (s t u sR : ZPState) (fs : List String)
    (hrun : s.running = true) (hple : s.restartPending ≤ 1)
    (hreach : Reachable sR) (hstep : Step t u) :
    (updatePlaylistFn s fs).1.restartPending = 1
    ∧ (updatePlaylistFn s fs).1.files = fs
    ∧ Act.backendStop ∈ (updatePlaylistFn s fs).2
    ∧ (s.restartPending = 1 → Act.restartEdgeDropped ∈ (updatePlaylistFn s fs).2)
    ∧ sR.restartPending ≤ 1
    ∧ (∀ sn, u.pc = LoopPC.copied sn →
        t.pc = LoopPC.copied sn ∨ (t.pc = LoopPC.top ∧ sn = t.files))
    ∧ (∀ sn, u.pc = LoopPC.playing sn →
        t.pc = LoopPC.playing sn ∨ (t.pc = LoopPC.copied sn ∧ sn ≠ []))
    ∧ (t.pc = LoopPC.postCheck → t.stopClosed = false → 1 ≤ t.restartPending →
        u.pc = LoopPC.top → u.restartPending < t.restartPending) := by
  have h01 : s.restartPending = 0 ∨ s.restartPending = 1 := by omega
  refine ⟨?_, by simp, ?_, ?_, (reachable_inv sR hreach).1, ?_, ?_, ?_⟩
  · rcases h01 with h0 | h1
    · simp [updatePlaylistFn, hrun, sendNonBlocking, restartCapacity, h0]
    · simp [updatePlaylistFn, hrun, sendNonBlocking, restartCapacity, h1]
  · simp [updatePlaylistFn, hrun]
  · intro h1
    simp [updatePlaylistFn, hrun, sendNonBlocking, restartCapacity, h1]
  · intro sn hu
    cases hstep <;> simp_all
  · intro sn hu
    cases hstep <;> simp_all
  · intro hpcT hclT hpT hu
    cases hstep <;> simp_all <;> omega

/-- C1 witness: the statement at a mid-playback state with one pending
edge, a fresh reachable state, and the loop's snapshot-copy step. -/
theorem claimC1_coalescing_witness :
    (updatePlaylistFn witPlaying []).1.restartPending = 1
    ∧ (updatePlaylistFn witPlaying []).1.files = []
    ∧ Act.backendStop ∈ (updatePlaylistFn witPlaying []).2
    ∧ (witPlaying.restartPending = 1 →
        Act.restartEdgeDropped ∈ (updatePlaylistFn witPlaying []).2)
    ∧ (initZP []).restartPending ≤ 1
    ∧ (∀ sn, witU.pc = LoopPC.copied sn →
        witT.pc = LoopPC.copied sn ∨ (witT.pc = LoopPC.top ∧ sn = witT.files))
    ∧ (∀ sn, witU.pc = LoopPC.playing sn →
        witT.pc = LoopPC.playing sn ∨ (witT.pc = LoopPC.copied sn ∧ sn ≠ []))
    ∧ (witT.pc = LoopPC.postCheck → witT.stopClosed = false →
        1 ≤ witT.restartPending →
        witU.pc = LoopPC.top → witU.restartPending < witT.restartPending) :=
  claimC1_coalescing witPlaying witT witU (initZP []) [] (by decide) (by decide)
    Relation.ReflTransGen.refl (Step.topCopy witT (by decide) (by decide))

/-- C2 counterexample: the run loop may pass its shutdown check and copy
a snapshot, then `stop()` runs to completion (shutdown closed, backend
stopped, running cleared), and the loop still calls `backend.PlayAll`
once more: from the reachable state `cexS3` with the shutdown signal
closed, a step enters the playing phase. -/
theorem claimC2_counterexample :
    Reachable cexS3 ∧ cexS3.stopClosed = true ∧ Step cexS3 cexS4
      ∧ cexS4.pc = LoopPC.playing [samplePath] ∧ cexS4.running = true := by
  refine ⟨?_, by decide, ?_, by decide, by decide⟩
  · have h1 : Step cexS0 cexS1 := Step.update cexS0 [samplePath]
    have h2 : Step cexS1 cexS2 := Step.topCopy cexS1 (by decide) (by decide)
    have h3 : Step cexS2 cexS3 := Step.stopCall cexS2
    exact Relation.ReflTransGen.tail
      (Relation.ReflTransGen.tail
        (Relation.ReflTransGen.tail Relation.ReflTransGen.refl h1) h2) h3
  · exact Step.playStart cexS3 [samplePath] (by decide) (by decide)

/-- C2 (amended): once the shutdown signal is closed it stays closed and
the loop is terminal up to one already-committed playback: every loop
step strictly decreases the termination measure, no step enters a new
snapshot-copy phase (so at most the one playback whose snapshot was
copied before `stop()` completed can still begin), from the top of the
loop the only loop step exits, a post-playback step to the top must
consume a restart edge (the backoff branch is never taken), and `stop()`
itself closes the shutdown signal, stops the backend and clears the
running flag. -/
theorem claimC2_shutdown_terminal (s u : ZPState) (hstop : s.stopClosed = true)
    (hstep : Step s u) :
    u.stopClosed = true
    ∧ pcMeasure u.pc ≤ pcMeasure s.pc
    ∧ (u.pc ≠ s.pc → pcMeasure u.pc < pcMeasure s.pc)
    ∧ (∀ sn, u.pc = LoopPC.copied sn → s.pc = LoopPC.copied sn)
    ∧ (∀ sn, u.pc = LoopPC.playing sn →
        s.pc = LoopPC.playing sn ∨ s.pc = LoopPC.copied sn)
    ∧ (s.pc = LoopPC.top → u.pc = LoopPC.top ∨ u.pc = LoopPC.done)
    ∧ (s.pc = LoopPC.postCheck → u.pc = LoopPC.top →
        u.restartPending < s.restartPending)
    ∧ ((zoneStopFn s).1.stopClosed = true ∧ (zoneStopFn s).1.running = false
        ∧ Act.backendStop ∈ (zoneStopFn s).2) := by
  have hz : (zoneStopFn s).1.stopClosed = true ∧ (zoneStopFn s).1.running = false
      ∧ Act.backendStop ∈ (zoneStopFn s).2 := by
    refine ⟨stopFn_stopClosed s, stopFn_running s, ?_⟩
    by_cases h : s.stopClosed <;> simp [zoneStopFn, h]
  cases hstep <;>
    refine ⟨?_, ?_, fun h => ?_, fun sn h => ?_, fun sn h => ?_,
      fun h => ?_, fun h1 h2 => ?_, hz⟩ <;>
    simp_all [pcMeasure] <;> omega

/-- C2 (amended) witness: the statement at the counterexample's stopped
state taking the committed playback step. -/
theorem claimC2_shutdown_terminal_witness :
    cexS4.stopClosed = true
    ∧ pcMeasure cexS4.pc ≤ pcMeasure cexS3.pc
    ∧ (cexS4.pc ≠ cexS3.pc → pcMeasure cexS4.pc < pcMeasure cexS3.pc)
    ∧ (∀ sn, cexS4.pc = LoopPC.copied sn → cexS3.pc = LoopPC.copied sn)
    ∧ (∀ sn, cexS4.pc = LoopPC.playing sn →
        cexS3.pc = LoopPC.playing sn ∨ cexS3.pc = LoopPC.copied sn)
    ∧ (cexS3.pc = LoopPC.top → cexS4.pc = LoopPC.top ∨ cexS4.pc = LoopPC.done)
    ∧ (cexS3.pc = LoopPC.postCheck → cexS4.pc = LoopPC.top →
        cexS4.restartPending < cexS3.restartPending)
    ∧ ((zoneStopFn cexS3).1.stopClosed = true ∧ (zoneStopFn cexS3).1.running = false
        ∧ Act.backendStop ∈ (zoneStopFn cexS3).2) :=
  claimC2_shutdown_terminal cexS3 cexS4 (by decide)
    (Step.playStart cexS3 [samplePath] (by decide) (by decide))

/-- C8: `stop()` is idempotent — N consecutive calls leave the zone and
its backend in the state one call produces; the shutdown close executes
at most once along any reachable interleaving (ghost `closeCount` never
exceeds one); `backend.Stop()` is a no-op when no process is attached and
repeating it adds nothing; and the running flag ends false. -/
theorem claimC8_stop_idempotent (z : ZoneFull) (n : Nat) (hn : 1 ≤ n)
    (s : ZPState) (hs : Reachable s) (b : DevBackend) (hb : b.cmd = none) :
    stopFullFn^[n] z = stopFullFn z
    ∧ (stopFullFn z).zp.running = false
    ∧ (stopFullFn z).zp.stopClosed = true
    ∧ (stopFullFn^[n] z).zp.closeCount ≤ z.zp.closeCount + 1
    ∧ s.closeCount ≤ 1
    ∧ devKill b = b
    ∧ devKill (devKill z.backend) = devKill z.backend := by
  obtain ⟨m, rfl⟩ : ∃ m, n = m + 1 := ⟨n - 1, by omega⟩
  refine ⟨stopFullFn_iterate z m, by simp [stopFullFn], by simp [stopFullFn], ?_,
    (reachable_inv s hs).2.1, devKill_noop b hb, devKill_idem z.backend⟩
  rw [stopFullFn_iterate]
  simp only [stopFullFn, stopFn_closeCount]
  split <;> omega

/-- C8 witness: three consecutive stops of a zone whose backend has a
live subprocess. -/
theorem claimC8_stop_idempotent_witness :
    stopFullFn^[3] witZoneFull = stopFullFn witZoneFull
    ∧ (stopFullFn witZoneFull).zp.running = false
    ∧ (stopFullFn witZoneFull).zp.stopClosed = true
    ∧ (stopFullFn^[3] witZoneFull).zp.closeCount ≤ witZoneFull.zp.closeCount + 1
    ∧ (initZP []).closeCount ≤ 1
    ∧ devKill witBackendIdle = witBackendIdle
    ∧ devKill (devKill witZoneFull.backend) = devKill witZoneFull.backend :=
  claimC8_stop_idempotent witZoneFull 3 (by decide) (initZP [])
    Relation.ReflTransGen.refl witBackendIdle rfl

end PlayerNative
